import Mathlib

set_option maxRecDepth 8000

/-!
Verification development for the DuckDuckGo fallback skill
(`__init__.py`).  The Python source is shallowly embedded: pure string
manipulation is modelled over `List Char` (Python `str` operations such as
`replace`, `split`, regex scans are re-implemented with the exact
left-to-right non-overlapping semantics of CPython), fallible code returns
`Option` (`none` = the Python code raises, e.g. an `IndexError`, or fails
to terminate), and the two outbound HTTP calls of `query_ddg` are passed in
as explicit `Except` values so that every network outcome can be examined.
All recursions are structural so that concrete inputs evaluate inside the
kernel (`rfl` / `decide`).
-/

/-- Python `str.replace(pat, repl)` (all non-overlapping occurrences, one
left-to-right pass), as a skip-state scan: `skip = 0` scans for the
pattern, `skip = k+1` is in the middle of consuming a matched pattern.  A
match on `c :: rest` consumes `c` plus `pat.length - 1` further chars. -/
def pyReplaceGo (pat repl : List Char) : Nat → List Char → List Char
  | 0, [] => []
  | 0, c :: rest =>
    if pat ≠ [] ∧ pat.isPrefixOf (c :: rest) then
      repl ++ pyReplaceGo pat repl (pat.length - 1) rest
    else c :: pyReplaceGo pat repl 0 rest
  | _+1, [] => []
  | skip+1, _ :: rest => pyReplaceGo pat repl skip rest

/-- Python `s.replace(pat, repl)` for a non-empty pattern. -/
def pyReplace (pat repl l : List Char) : List Char := pyReplaceGo pat repl 0 l

/-- Python `s.split(sep)` for a non-empty separator (keeps empty segments;
`''.split(sep) = ['']`), with the same skip-state scheme as `pyReplaceGo`. -/
def pySplitGo (sep : List Char) : Nat → List Char → List (List Char)
  | 0, [] => [[]]
  | 0, c :: rest =>
    if sep ≠ [] ∧ sep.isPrefixOf (c :: rest) then
      [] :: pySplitGo sep (sep.length - 1) rest
    else
      match pySplitGo sep 0 rest with
      | [] => [[c]]
      | s :: ss => (c :: s) :: ss
  | _+1, [] => [[]]
  | skip+1, _ :: rest => pySplitGo sep skip rest

/-- Python `s.split(sep)`. -/
def pySplit (sep l : List Char) : List (List Char) := pySplitGo sep 0 l

/-- Python `pat in s` (substring containment). -/
def containsSub (pat : List Char) : List Char → Bool
  | [] => pat.isEmpty
  | c :: rest => pat.isPrefixOf (c :: rest) || containsSub pat rest

/-- Python `sep.join(parts)` over char lists. -/
def joinSepL (sep : List Char) : List (List Char) → List Char
  | [] => []
  | [x] => x
  | x :: xs => x ++ sep ++ joinSepL sep xs

/-- Python `sep.join(parts)` over strings. -/
def joinSep (sep : String) : List String → String
  | [] => ""
  | [x] => x
  | x :: xs => x ++ sep ++ joinSep sep xs

/-- Model of `re.sub(r' ([^ .])\.', r' \1~.~', text)`: a period that follows a space
plus one single character that is neither a space nor a period is wrapped
as `~.~`.  The scan is left-to-right and non-overlapping and resumes right
after each replaced portion, exactly like `re.sub`.  A leading initial at
position 0 has no preceding space, so it is NOT protected. -/
def protectGo : Nat → List Char → List Char
  | _, [] => []
  | skip+1, _ :: rest => protectGo skip rest
  | 0, c :: rest =>
    if c = ' ' then
      match rest with
      | d :: '.' :: _ =>
        if d ≠ ' ' ∧ d ≠ '.' then ' ' :: d :: '~' :: '.' :: '~' :: protectGo 2 rest
        else ' ' :: protectGo 0 rest
      | _ => c :: protectGo 0 rest
    else c :: protectGo 0 rest

/-- Function `split_sentences(text)` from `__init__.py` (module-level function).
`none` models the `IndexError` that `sents[-1][-1]` raises when the final
token after splitting is the empty string. -/
def split_sentences (text : String) : Option (List String) :=
  let t1 := protectGo 0 text.data
  let t2 := pyReplace "Inc.".data "Inc~.~".data t1
  let t3 := pyReplace "! ".data ". ".data t2
  let t4 := pyReplace "? ".data ". ".data t3
  let sents := (pySplit ". ".data t4).map (pyReplace "~.~".data ".".data)
  match sents.getLast? with
  | none => none
  | some last =>
    match last.getLast? with
    | none => none
    | some c =>
      if c = '.' ∨ c = '!' ∨ c = '?' then
        some ((sents.dropLast ++ [last.dropLast]).map String.mk)
      else some (sents.map String.mk)

/-!
## Topic extraction (`DuckduckgoSkill.extract_topic`)

The three nested `for` loops of `extract_topic` are embedded as three
recursions over the localized word lists (`translated_question_words`,
`translated_question_verbs`, `translated_articles`, passed as parameters;
they come from locale resource files not in the repository).  Each loop
level returns on the first matching combination, exactly like the early
`return` in the source.  The tested prefix is
`noun + verb + ' ' + article` with article drawn from
`[i + ' ' for i in articles] + ['']`.
-/

/-- Inner loop of `extract_topic`: the article candidates (already
transformed to `[i + ' ' for i in articles] + ['']`). -/
def tryArticles (q : List Char) (noun verb : String) : List String → Option (List Char)
  | [] => none
  | a :: as =>
    if (noun ++ verb ++ " " ++ a).data.isPrefixOf q then
      some (q.drop (noun ++ verb ++ " " ++ a).data.length)
    else tryArticles q noun verb as

/-- Middle loop of `extract_topic` over the question verbs. -/
def tryVerbs (q : List Char) (noun : String) (arts2 : List String) : List String → Option (List Char)
  | [] => none
  | v :: vs =>
    match tryArticles q noun v arts2 with
    | some r => some r
    | none => tryVerbs q noun arts2 vs

/-- Outer loop of `extract_topic` over the question words. -/
def tryNouns (q : List Char) (arts2 qvs : List String) : List String → Option (List Char)
  | [] => none
  | n :: ns =>
    match tryVerbs q n arts2 qvs with
    | some r => some r
    | none => tryNouns q arts2 qvs ns

/-- Method `DuckduckgoSkill.extract_topic`: return the remainder after the first
matching `noun + verb + ' ' + article` prefix, else the query unchanged. -/
def extract_topic (qws qvs arts : List String) (query : String) : String :=
  match tryNouns query.data (arts.map (fun a => a ++ " ") ++ [""]) qvs qws with
  | some rest => String.mk rest
  | none => query

/-- Per-noun-and-verb block of tested prefixes, in inner-loop order. -/
def combosA (noun verb : String) (arts2 : List String) : List String :=
  arts2.map (fun a => noun ++ verb ++ " " ++ a)

/-- Per-noun blocks of tested prefixes, in middle-loop order. -/
def combosV (noun : String) (arts2 : List String) : List String → List String
  | [] => []
  | v :: vs => combosA noun v arts2 ++ combosV noun arts2 vs

/-- All tested prefixes `noun + verb + ' ' + article`, in exact loop
order (outer loop: question words; middle: question verbs; inner:
articles-with-trailing-space then the empty article). -/
def combos (qws qvs arts : List String) : List String :=
  combosN (arts.map (fun a => a ++ " ") ++ [""]) qvs qws
where
  combosN (arts2 qvs : List String) : List String → List String
  | [] => []
  | n :: ns => combosV n arts2 qvs ++ combosN arts2 qvs ns

/-- The claim's selection rule, stated in the spec's own words: scan the
combination list in order and return the first entry that is a prefix of
the query. -/
def firstPrefixMatch (q : List Char) : List String → Option String
  | [] => none
  | t :: ts => if t.data.isPrefixOf q then some t else firstPrefixMatch q ts

/-!
## `format_related` (related-topic reformatter)

Line-by-line embedding of `DuckduckgoSkill.format_related`.  The word
lists `translated_start_words` and `translated_articles` are parameters.
`none` models a raised `IndexError` (e.g. `ans[-1]` on an empty string,
`last.split()[0]` on a whitespace-only phrase) or non-termination of the
trailing-word `while` loop (which loops forever in Python when
`ans.replace(' ' + last_word, '')` leaves `ans` unchanged, e.g. a
single word ending in `"ing"`).
-/

/-- Python `s[-n:]` for `n ≥ 1`: the last `n` characters (the whole string
when shorter). -/
def lastN (n : Nat) (l : List Char) : List Char := l.drop (l.length - n)

/-- The `while ans[-1] == '.': ans = ans[:-1]` loop: strip trailing
periods. -/
def dropTrailingDots (l : List Char) : List Char :=
  (l.reverse.dropWhile (fun c => c == '.')).reverse

/-- Python `s.split()` (split on whitespace runs, dropping empties). -/
def pyWordsAux (cur : List Char) : List Char → List (List Char)
  | [] => if cur.isEmpty then [] else [cur.reverse]
  | c :: rest =>
    if c.isWhitespace then
      if cur.isEmpty then pyWordsAux [] rest
      else cur.reverse :: pyWordsAux [] rest
    else pyWordsAux (c :: cur) rest

/-- Python `s.split()`. -/
def pyWords (l : List Char) : List (List Char) := pyWordsAux [] l

/-- The `while last_word in start_words or last_word[-3:] == 'ing'` loop.
Each productive iteration removes at least one character, so fuel
`ans.length + 1` suffices for every terminating Python run; when
`replace` is a no-op the Python loop never terminates and the fuel runs
out (`none`). -/
def stripTrailingWords (startWords : List String) : Nat → List Char → Option (List Char)
  | 0, _ => none
  | fuel+1, ans =>
    let lastWord := (pySplit [' '] ans).getLastD []
    if String.mk lastWord ∈ startWords ∨ lastN 3 lastWord = "ing".data then
      stripTrailingWords startWords fuel (pyReplace (' ' :: lastWord) [] ans)
    else some ans

/-- The `if ans[-2:] == '..':` block of `format_related`: strip trailing
dots, drop a final comma-separated phrase whose first word is a start
word, then strip trailing start-words / `"ing"` words. -/
def formatRelatedTruncated (startWords : List String) (ansIn : List Char) : Option (List Char) :=
  if lastN 2 ansIn = "..".data then
    let stripped := dropTrailingDots ansIn
    if stripped = [] then none
    else
      let phrases := pySplit ", ".data stripped
      match pyWords (phrases.getLastD []) with
      | [] => none
      | w :: _ =>
        let ans := if String.mk w ∈ startWords then joinSepL ", ".data phrases.dropLast
                   else stripped
        stripTrailingWords startWords (ans.length + 1) ans
  else some ansIn

/-- Model of `re.search(r'\(([a-z ]+)\)', ans)`: the leftmost position where `'('`
is followed by a non-empty maximal run of `[a-z ]` characters and then
`')'`; returns the index of the group start and the group characters. -/
def findCategory : Nat → List Char → Option (Nat × List Char)
  | _, [] => none
  | i, c :: rest =>
    if c = '(' then
      let run := rest.takeWhile (fun d => ('a' ≤ d ∧ d ≤ 'z') ∨ d = ' ')
      if run ≠ [] ∧ (rest.drop run.length).headD ' ' = ')' then some (i + 1, run)
      else findCategory (i + 1) rest
    else findCategory (i + 1) rest

/-- Category phase of `format_related`: when the parenthesised category
starts no further than `2 * len(query)`, capture it and collapse all its
occurrences to `"()"`. -/
def categoryPhase (queryLen : Nat) (ans : List Char) : Option (List Char) × List Char :=
  match findCategory 0 ans with
  | some (start, run) =>
    if start ≤ queryLen * 2 then
      (some run, pyReplace ('(' :: run ++ [')']) "()".data ans)
    else (none, ans)
  | none => (none, ans)

/-- Python `str.title()` for ASCII: a letter after a non-letter is
uppercased, a letter after a letter is lowercased. -/
def pyTitleGo (prevAlpha : Bool) : List Char → List Char
  | [] => []
  | c :: rest =>
    if c.isAlpha then
      (if prevAlpha then c.toLower else c.toUpper) :: pyTitleGo true rest
    else c :: pyTitleGo false rest

/-- Python `str.title()`. -/
def pyTitle (l : List Char) : List Char := pyTitleGo false l

/-- Python `list.index` (first index; only called under a membership
guard, as in the source). -/
def idxOfL (a : List Char) : List (List Char) → Nat
  | [] => 0
  | b :: t => if b = a then 0 else idxOfL a t + 1

/-- The `for article in self.translated_articles:` loop of
`format_related`: find the first article whose title-cased form occurs in
`words` at an index `≤ 2 * len(query.split())`, split there and rejoin
with `self.is_verb` (`" is "`), lowercasing the first description word;
the loop falls through to the next article when the index is too large. -/
def articleLoop (words : List (List Char)) (queryWordCount : Nat) (ans : List Char) :
    List String → List Char
  | [] => ans
  | article :: rest =>
    if words.contains (pyTitle article.data) then
      if idxOfL (pyTitle article.data) words ≤ 2 * queryWordCount then
        joinSepL [' '] (words.take (idxOfL (pyTitle article.data) words)) ++ " is ".data ++
          joinSepL [' ']
            (match words.drop (idxOfL (pyTitle article.data) words) with
             | [] => []
             | d :: ds => d.map Char.toLower :: ds)
      else articleLoop words queryWordCount ans rest
    else articleLoop words queryWordCount ans rest

/-- The closing `if ans[-1] not in '.?!': ans += '.'` of `format_related`;
`none` is the `IndexError` on an empty `ans`. -/
def finalPunct (ans : List Char) : Option (List Char) :=
  match ans.getLast? with
  | none => none
  | some c => if c == '.' || c == '?' || c == '!' then some ans else some (ans ++ ['.'])

/-- Method `DuckduckgoSkill.format_related(abstract, query)`. -/
def format_related (startWords articles : List String) (abstract query : String) :
    Option String :=
  match formatRelatedTruncated startWords abstract.data with
  | none => none
  | some ans0 =>
    let cp := categoryPhase query.data.length ans0
    let ans1 := cp.2
    let ans2 := articleLoop (pyWords ans1) (pyWords query.data).length ans1 articles
    let ans3 := match cp.1 with
      | some cat => pyReplace "()".data ("in ".data ++ cat) ans2
      | none => ans2
    (finalPunct ans3).map String.mk

/-!
## `query_ddg` (search client and answer selector)

The `ddg3` response object is modelled by its fields that `query_ddg`
observes: `type`, `answer.text` (collapsed to `Option String`: `none`
when `response.answer is None` or its text is falsy-`None`; Python only
ever tests `response.answer is not None and response.answer.text`),
`abstract.text`, and the `related` list with each entry's `text` and
`url`.  The two HTTP interactions are inputs: `primary` is the outcome of
`ddg.query(query)` (`.error` = the call raised — this one is wrapped in
`try/except` in the source), and `fetch` is the outcome of the
disambiguation detail request `requests.get(...)` plus
`ElementTree.fromstring` parse (`.error` = either raised — NOT wrapped in
any `try/except`; `.ok none` = empty response body; `.ok (some r)` = the
parsed detailed result).
-/

/-- One entry of `response.related`. -/
structure RelatedItem where
  text : String
  url : String
deriving DecidableEq

/-- The fields of a `ddg3` result object that `query_ddg` inspects. -/
structure DdgResponse where
  type : String
  answerText : Option String
  abstractText : String
  related : List RelatedItem
deriving DecidableEq

/-- The guard of the direct-answer branch:
`response.answer is not None and response.answer.text and "HASH" not in
response.answer.text`.  Note: a SUBSTRING containment test, not equality
with `"HASH"`. -/
def answerCond (r : DdgResponse) : Bool :=
  match r.answerText with
  | none => false
  | some t => !t.data.isEmpty && !containsSub "HASH".data t.data

/-- The selection priority chain of `query_ddg` (lines 151-163): direct
answer, else non-empty abstract split into sentences and rejoined with
`". "`, else non-empty first related-topic text reformatted, else no
answer.  `.error ()` models an uncaught exception escaping `query_ddg`
(this part of the function is outside the `try/except`). -/
def selectAnswer (startWords articles : List String) (query : String) (r : DdgResponse) :
    Except Unit (Option String) :=
  if answerCond r then
    .ok (some (query ++ " is " ++ (r.answerText.getD "") ++ "."))
  else if 0 < r.abstractText.data.length then
    match split_sentences r.abstractText with
    | none => .error ()
    | some sents => .ok (some (joinSep ". " sents))
  else if 0 < r.related.length ∧ 0 < ((r.related.headD ⟨"", ""⟩).text.data.length) then
    match split_sentences (r.related.headD ⟨"", ""⟩).text with
    | none => .error ()
    | some sents =>
      match format_related startWords articles (sents.headD "") query with
      | none => .error ()
      | some ans => .ok (some ans)
  else .ok none

/-- Method `DuckduckgoSkill.query_ddg(query)`.  Empty query: `None` with no
remote call.  A raised primary call is caught (`try/except`) and yields
`None`.  On a disambiguation result with a non-empty `related` list the
detail document is fetched: an empty body keeps the original result,
a parsed body replaces it, and a raised fetch/parse error propagates
(it is outside the `try/except`). -/
def query_ddg (startWords articles : List String) (query : String)
    (primary : Except Unit DdgResponse) (fetch : Except Unit (Option DdgResponse)) :
    Except Unit (Option String) :=
  if query.data.length = 0 then .ok none
  else
    match primary with
    | .error _ => .ok none
    | .ok response =>
      if response.type = "disambiguation" ∧ response.related ≠ [] then
        match fetch with
        | .error e => .error e
        | .ok none => selectAnswer startWords articles query response
        | .ok (some detailed) => selectAnswer startWords articles query detailed
      else selectAnswer startWords articles query response

/-- Number of outbound HTTP calls a single `query_ddg` invocation makes,
following the control flow of the source: none for an empty query, one
primary `ddg.query` call otherwise, plus one `requests.get` detail fetch
when the primary result is a disambiguation with related entries. -/
def query_ddg_calls (query : String) (primary : Except Unit DdgResponse) : Nat :=
  if query.data.length = 0 then 0
  else
    match primary with
    | .error _ => 1
    | .ok response =>
      if response.type = "disambiguation" ∧ response.related ≠ [] then 2 else 1

/-- Does a string end in terminal punctuation `.`, `?` or `!` (over the
character list)? -/
def endsTerminalL (l : List Char) : Bool :=
  match l.getLast? with
  | none => false
  | some c => c == '.' || c == '?' || c == '!'

/-- Does a string end in terminal punctuation `.`, `?` or `!`? -/
def endsTerminal (s : String) : Bool := endsTerminalL s.data

/-- The article-stripping tail of `handle_ask_ducky` (lines 222-224):
`utt.replace("an ", "").replace("a ", "").replace("the ", "")` applied in
that order after trigger-vocabulary removal and topic extraction.  Python
`str.replace` with no count replaces ALL non-overlapping occurrences. -/
def strip_articles (utt : String) : String :=
  String.mk (pyReplace "the ".data "".data
    (pyReplace "a ".data "".data
      (pyReplace "an ".data "".data utt.data)))

/-- Does the article loop of `CQS_match_query_phrase` fire a `query_ddg`
call for this (noun, verb) pair?  The inner `for article` loop calls
`query_ddg` and `break`s at the FIRST matching article, so it contributes
at most one call per (noun, verb) pair. -/
def cqsArticleFires (query noun verb : String) (arts2 : List String) : Bool :=
  arts2.any (fun a => (noun ++ verb ++ " " ++ a).data.isPrefixOf query.data)

/-- Middle loop of `CQS_match_query_phrase`: the `break` only exits the
innermost article loop, so the verb loop keeps iterating and each further
matching (noun, verb) pair fires another `query_ddg` call. -/
def cqsCallsVerbs (query noun : String) (arts2 : List String) : List String → Nat
  | [] => 0
  | v :: vs =>
    (if cqsArticleFires query noun v arts2 then 1 else 0) + cqsCallsVerbs query noun arts2 vs

/-- Outer loop of `CQS_match_query_phrase` (never broken out of). -/
def cqsCallsNouns (query : String) (arts2 qvs : List String) : List String → Nat
  | [] => 0
  | n :: ns => cqsCallsVerbs query n arts2 qvs + cqsCallsNouns query arts2 qvs ns

/-- Number of `query_ddg` invocations (each of which issues the primary
search query) that a single `CQS_match_query_phrase(query)` call performs,
following the triple loop of lines 196-202 with its innermost-only
`break`. -/
def cqs_primary_calls (query : String) (qws qvs arts : List String) : Nat :=
  cqsCallsNouns query (arts.map (fun a => a ++ " ") ++ [""]) qvs qws


/-- Claim C6: the spec requires `split_sentences` to be total — never an
index error when checking the last character of the last sentence.  The
code instead evaluates `sents[-1][-1]`, which raises `IndexError` (modelled
as `none`) on the empty string and on any text ending in `". "`. -/
theorem c6_index_error_on_empty_tail :
    split_sentences "" = none ∧ split_sentences "Hi. " = none :=
  ⟨rfl, rfl⟩

/-- Claim C7: the abbreviation-protecting regex requires a space before the
initial, so the leading `"J."` is unprotected and the text IS split there,
into two sentences — contradicting the claim that it yields exactly one
unsplit sentence.  The second conjunct (single already-split sentence)
holds as claimed. -/
theorem c7_splits_leading_initial :
    split_sentences "J. R. R. Tolkien was an author." =
      some ["J", "R. R. Tolkien was an author"] ∧
    split_sentences "Earth is a planet." = some ["Earth is a planet"] :=
  ⟨rfl, rfl⟩

theorem firstPrefixMatch_append (q : List Char) (l1 l2 : List String) :
    firstPrefixMatch q (l1 ++ l2) =
      match firstPrefixMatch q l1 with
      | some t => some t
      | none => firstPrefixMatch q l2 := by
  induction l1 with
  | nil => rfl
  | cons a l ih =>
    by_cases h : a.data.isPrefixOf q <;> simp [firstPrefixMatch, h, ih]

theorem tryArticles_eq_first (q : List Char) (noun verb : String) (as : List String) :
    tryArticles q noun verb as =
      (firstPrefixMatch q (combosA noun verb as)).map
        (fun t => q.drop t.data.length) := by
  induction as with
  | nil => rfl
  | cons a as ih =>
    simp only [tryArticles, combosA, List.map_cons, firstPrefixMatch]
    split
    · rfl
    · simpa [combosA] using ih

theorem tryVerbs_eq_first (q : List Char) (noun : String) (arts2 vs : List String) :
    tryVerbs q noun arts2 vs =
      (firstPrefixMatch q (combosV noun arts2 vs)).map
        (fun t => q.drop t.data.length) := by
  induction vs with
  | nil => rfl
  | cons v vs ih =>
    rw [tryVerbs, combosV, firstPrefixMatch_append, tryArticles_eq_first]
    cases h : firstPrefixMatch q (combosA noun v arts2) <;> simp [h, ih]

theorem tryNouns_eq_first (q : List Char) (arts2 qvs ns : List String) :
    tryNouns q arts2 qvs ns =
      (firstPrefixMatch q (combos.combosN arts2 qvs ns)).map
        (fun t => q.drop t.data.length) := by
  induction ns with
  | nil => rfl
  | cons n ns ih =>
    rw [tryNouns, combos.combosN, firstPrefixMatch_append, tryVerbs_eq_first]
    cases h : firstPrefixMatch q (combosV n arts2 qvs) <;> simp [h, ih]

/-- Bridge lemma shared by C5 and C10: `extract_topic` returns the
remainder of the query after the first combination (in loop order) that is
a prefix, and the query unchanged when no combination matches. -/
theorem extract_topic_eq_first (qws qvs arts : List String) (query : String) :
    extract_topic qws qvs arts query =
      match firstPrefixMatch query.data (combos qws qvs arts) with
      | some t => String.mk (query.data.drop t.data.length)
      | none => query := by
  rw [extract_topic, combos, tryNouns_eq_first]
  cases h : firstPrefixMatch query.data
      (combos.combosN (arts.map (fun a => a ++ " ") ++ [""]) qvs qws) <;> simp [h]

/-- Claim C5 counterexample: with question words `{"what"}`, verbs
`{"is"}`, articles `{"a","the"}` exactly as the claim gives them, the
tested prefixes are `"whatis a "`, `"whatis the "`, `"whatis "` (the code
concatenates question word and verb with no separator), so
`"what is the earth"` matches nothing and is returned unchanged — not
`"earth"` as the claim asserts. -/
theorem c5_counterexample :
    extract_topic ["what"] ["is"] ["a", "the"] "what is the earth" =
      "what is the earth" ∧
    ("what is the earth" == "earth") = false :=
  ⟨rfl, rfl⟩

/-- Claim C5 (amended): `extract_topic` iterates all question-word ×
question-verb × article combinations in list order (articles each with a
trailing space, then the empty article) and returns, on the first
combination `noun ++ verb ++ " " ++ article` that is a prefix of the
utterance, the remainder after that prefix, else the utterance unchanged.
Because no separator is inserted between question word and verb, the verb
must carry its leading space: with verbs `{" is"}` the claim's examples
hold (`"what is the earth"` → `"earth"`, `"earth"` → `"earth"`). -/
theorem c5_amended_first_match :
    (∀ qws qvs arts query, extract_topic qws qvs arts query =
      match firstPrefixMatch query.data (combos qws qvs arts) with
      | some t => String.mk (query.data.drop t.data.length)
      | none => query) ∧
    extract_topic ["what"] [" is"] ["a", "the"] "what is the earth" = "earth" ∧
    extract_topic ["what"] [" is"] ["a", "the"] "earth" = "earth" :=
  ⟨extract_topic_eq_first, rfl, rfl⟩

/-- Claim C10: the result of `extract_topic` is always a suffix of the
input query — either the whole query, or the query with a prefix removed;
characters are never reordered, rewritten or added. -/
theorem c10_extract_topic_suffix (qws qvs arts : List String) (query : String) :
    ∃ k, extract_topic qws qvs arts query = String.mk (query.data.drop k) := by
  rw [extract_topic_eq_first]
  cases h : firstPrefixMatch query.data (combos qws qvs arts) with
  | none => exact ⟨0, by simp⟩
  | some t => exact ⟨t.data.length, rfl⟩


theorem pyReplaceGo_skip (pat repl : List Char) :
    ∀ (xs l : List Char), pyReplaceGo pat repl xs.length (xs ++ l) = pyReplaceGo pat repl 0 l := by
  intro xs
  induction xs with
  | nil => intro l; rfl
  | cons x xs ih => intro l; simpa [pyReplaceGo] using ih l

theorem isPrefixOf_append_self : ∀ (p l : List Char), p.isPrefixOf (p ++ l) = true := by
  intro p
  induction p with
  | nil => intro l; simp [List.isPrefixOf]
  | cons c p ih => intro l; simp [List.isPrefixOf, ih]

/-- Python `str.replace` consumes an occurrence of the pattern at the head and
then KEEPS scanning the remainder for further occurrences. -/
theorem pyReplace_head_occurrence (pat repl l : List Char) (hne : pat ≠ []) :
    pyReplace pat repl (pat ++ l) = repl ++ pyReplace pat repl l := by
  match pat, hne with
  | p :: ps, _ =>
    show pyReplaceGo (p :: ps) repl 0 (p :: (ps ++ l)) = _
    simp only [pyReplaceGo]
    rw [if_pos ⟨List.cons_ne_nil p ps, isPrefixOf_append_self (p :: ps) l⟩]
    have : (p :: ps).length - 1 = ps.length := by simp
    rw [this, pyReplaceGo_skip]
    rfl

/-- When no occurrence starts at the current character, `str.replace`
keeps the character and moves on by one. -/
theorem pyReplace_step (pat repl : List Char) (c : Char) (rest : List Char)
    (h : pat.isPrefixOf (c :: rest) = false) :
    pyReplace pat repl (c :: rest) = c :: pyReplace pat repl rest := by
  show pyReplaceGo pat repl 0 (c :: rest) = _
  simp only [pyReplaceGo]
  rw [if_neg]
  · rfl
  · intro hand
    rw [hand.2] at h
    simp at h

/-- A string with no occurrence of the pattern is left unchanged. -/
theorem pyReplace_no_occurrence (pat repl : List Char) :
    ∀ l, containsSub pat l = false → pyReplace pat repl l = l := by
  intro l
  induction l with
  | nil => intro h; rfl
  | cons c rest ih =>
    intro h
    unfold containsSub at h
    rw [Bool.or_eq_false_iff] at h
    rw [pyReplace_step pat repl c rest h.1, ih h.2]

theorem finalPunct_terminal (l m : List Char) (h : finalPunct l = some m) :
    m ≠ [] ∧ endsTerminalL m = true := by
  unfold finalPunct at h
  cases hL : l.getLast? with
  | none => simp [hL] at h
  | some c =>
    simp only [hL] at h
    by_cases hc : (c == '.' || c == '?' || c == '!') = true
    · rw [if_pos hc] at h
      injection h with h
      subst h
      refine ⟨?_, ?_⟩
      · intro h0; subst h0; simp at hL
      · unfold endsTerminalL; rw [hL]; exact hc
    · rw [if_neg hc] at h
      injection h with h
      subst h
      refine ⟨by simp, ?_⟩
      unfold endsTerminalL
      rw [List.getLast?_concat]
      rfl

theorem format_related_terminal (sw arts : List String) (a q s : String)
    (h : format_related sw arts a q = some s) :
    s.data ≠ [] ∧ endsTerminal s = true := by
  simp only [format_related] at h
  cases h1 : formatRelatedTruncated sw a.data with
  | none => simp [h1] at h
  | some ans0 =>
    simp only [h1] at h
    rw [Option.map_eq_some'] at h
    obtain ⟨m, hm, hs⟩ := h
    subst hs
    exact finalPunct_terminal _ m hm

/-- Claim C1 counterexample: on the abstract branch the terminal
punctuation invariant FAILS.  `split_sentences` strips the trailing
period of the last sentence, so for a response whose abstract is
`"Earth is a planet."` (no direct answer), `query_ddg` returns
`"Earth is a planet"`, which does not end in `.`, `?` or `!`. -/
theorem c1_counterexample :
    query_ddg [] [] "earth" (.ok ⟨"A", none, "Earth is a planet.", []⟩) (.ok none) =
      .ok (some "Earth is a planet") ∧
    endsTerminal "Earth is a planet" = false :=
  ⟨rfl, rfl⟩

/-- Claim C1 (amended): every string returned from the direct-answer
branch or from the related-topic branch is non-empty and ends in `.`, `?`
or `!` (the former appends `"."`, the latter ends with the
`ans[-1] not in '.?!'` guard of `format_related`).  The hypothesis
`answerCond r = true ∨ r.abstractText = ""` covers exactly those two
branches: the direct-answer branch fires precisely when `answerCond`
holds (whatever the abstract is), and the related-topic branch is only
reachable when the abstract is empty.  The abstract branch gives no such
guarantee (see the counterexample), because `split_sentences` strips the
final terminal punctuation before the sentences are rejoined. -/
theorem c1_amended_terminal_punct (sw arts : List String) (q : String) (r : DdgResponse)
    (s : String) (hbr : answerCond r = true ∨ r.abstractText = "")
    (h : selectAnswer sw arts q r = .ok (some s)) :
    s.data ≠ [] ∧ endsTerminal s = true := by
  unfold selectAnswer at h
  split at h
  · injection h with h
    injection h with h
    subst h
    constructor
    · show (q ++ " is " ++ (r.answerText.getD "") ++ ".").data ≠ []
      have hd : (q ++ " is " ++ (r.answerText.getD "") ++ ".").data =
          (q ++ " is " ++ (r.answerText.getD "")).data ++ ['.'] := rfl
      rw [hd]
      simp
    · show endsTerminalL (q ++ " is " ++ (r.answerText.getD "") ++ ".").data = true
      have hd : (q ++ " is " ++ (r.answerText.getD "") ++ ".").data =
          (q ++ " is " ++ (r.answerText.getD "")).data ++ ['.'] := rfl
      rw [hd]
      unfold endsTerminalL
      rw [List.getLast?_concat]
      rfl
  · rename_i hA
    have habs : r.abstractText = "" := by
      rcases hbr with hb | hb
      · exact absurd hb hA
      · exact hb
    split at h
    · rename_i hB
      rw [habs] at hB
      simp at hB
    · split at h
      · split at h
        · cases h
        · split at h
          · cases h
          · rename_i sents hsp ans hfr
            injection h with h
            injection h with h
            subst h
            exact format_related_terminal sw arts _ q ans hfr
      · exact absurd h (by simp)

/-- Witness for C1 (amended) at a concrete related-topic response: the
reformatted answer for `"big ben"` ends in terminal punctuation. -/
theorem c1_terminal_witness :
    endsTerminal "Big Ben is a clock tower in London." = true :=
  (c1_amended_terminal_punct ["of"] ["a", "an", "the"] "big ben"
    ⟨"article", none, "", [⟨"Big Ben A clock tower in London", "u"⟩]⟩
    "Big Ben is a clock tower in London." (Or.inr rfl) rfl).2

/-- Claim C2 counterexample: when the disambiguation detail fetch raises,
the exception DOES propagate out of `query_ddg` — `requests.get` and the
XML parse are outside the `try/except`, which only wraps the primary
`ddg.query` call.  The claim's "no exception propagates to the caller"
is false. -/
theorem c2_counterexample :
    query_ddg [] [] "paris"
      (.ok ⟨"disambiguation", none, "", [⟨"Paris is a city.", "u"⟩]⟩)
      (.error ()) = .error () :=
  rfl

/-- Claim C2 (amended): for a disambiguation result with at least one
related entry, an EMPTY detail-fetch body keeps the original result,
whose first related-topic text is then usable through the normal priority
chain (`selectAnswer` on the original response); but a RAISED detail
fetch (or XML parse) propagates the exception to the caller. -/
theorem c2_amended_fallback (sw arts : List String) (q : String) (r : DdgResponse)
    (hq : q.data.length ≠ 0) (ht : r.type = "disambiguation") (hr : r.related ≠ []) :
    query_ddg sw arts q (.ok r) (.ok none) = selectAnswer sw arts q r ∧
    query_ddg sw arts q (.ok r) (.error ()) = .error () := by
  have hq2 : q.length ≠ 0 := hq
  constructor <;> simp [query_ddg, hq2, ht, hr]

/-- Witness for C2 (amended) at a concrete disambiguation response. -/
theorem c2_fallback_witness :
    query_ddg ["of"] ["a", "an", "the"] "big ben"
      (.ok ⟨"disambiguation", none, "", [⟨"Big Ben A clock tower in London", "u"⟩]⟩)
      (.ok none) =
      selectAnswer ["of"] ["a", "an", "the"] "big ben"
        ⟨"disambiguation", none, "", [⟨"Big Ben A clock tower in London", "u"⟩]⟩ ∧
    query_ddg ["of"] ["a", "an", "the"] "big ben"
      (.ok ⟨"disambiguation", none, "", [⟨"Big Ben A clock tower in London", "u"⟩]⟩)
      (.error ()) = .error () :=
  c2_amended_fallback ["of"] ["a", "an", "the"] "big ben"
    ⟨"disambiguation", none, "", [⟨"Big Ben A clock tower in London", "u"⟩]⟩
    (by decide) rfl (by decide)

/-- Claim C3: `query_ddg` returns the no-answer marker for an empty topic
without issuing any remote call (`query_ddg_calls` is `0`), and returns it
when the primary API call raises (the `try/except` around `ddg.query`);
in both cases the result is an ordinary `None`, no exception escapes. -/
theorem c3_empty_and_error_no_propagation (sw arts : List String) (q : String)
    (primary : Except Unit DdgResponse) (fetch : Except Unit (Option DdgResponse)) :
    query_ddg sw arts "" primary fetch = .ok none ∧
    query_ddg_calls "" primary = 0 ∧
    query_ddg sw arts q (.error ()) fetch = .ok none := by
  refine ⟨rfl, rfl, ?_⟩
  by_cases h : q.data.length = 0 <;> simp [query_ddg, h]

/-- Claim C4 counterexample: the direct-answer guard tests SUBSTRING
containment of `"HASH"`, not equality with the placeholder token.  An
answer text `"xHASHy"` is present, non-empty and not equal to `"HASH"`,
yet `query_ddg` skips the direct-answer branch and answers from the
abstract instead of returning `"q is xHASHy."`. -/
theorem c4_counterexample :
    (DdgResponse.mk "A" (some "xHASHy") "Abs." []).answerText = some "xHASHy" ∧
    ("xHASHy" == "") = false ∧
    ("xHASHy" == "HASH") = false ∧
    query_ddg [] [] "q" (.ok ⟨"A", some "xHASHy", "Abs.", []⟩) (.ok none) =
      .ok (some "Abs") ∧
    ("Abs" == "q is xHASHy.") = false :=
  ⟨rfl, rfl, rfl, rfl, rfl⟩

/-- Claim C4 (amended): the fixed selection priority of `query_ddg`, with
the direct-answer guard corrected to "does not CONTAIN the substring
`"HASH"`": (1) a present, non-empty, HASH-free answer text yields
`"<topic> is <answer>."`; (2) otherwise a non-empty abstract is split
into sentences and rejoined with `". "`; (3) otherwise a non-empty first
related-topic text is reformatted from its first sentence; (4) otherwise
no answer. -/
theorem c4_amended_priority (sw arts : List String) (q : String) (r : DdgResponse) :
    (∀ t, r.answerText = some t → t.data.isEmpty = false →
        containsSub "HASH".data t.data = false →
        selectAnswer sw arts q r = .ok (some (q ++ " is " ++ t ++ "."))) ∧
    (answerCond r = false → 0 < r.abstractText.data.length →
        selectAnswer sw arts q r =
          match split_sentences r.abstractText with
          | none => .error ()
          | some sents => .ok (some (joinSep ". " sents))) ∧
    (answerCond r = false → r.abstractText.data.length = 0 →
        ∀ rel rest, r.related = rel :: rest → 0 < rel.text.data.length →
        selectAnswer sw arts q r =
          match split_sentences rel.text with
          | none => .error ()
          | some sents =>
            match format_related sw arts (sents.headD "") q with
            | none => .error ()
            | some ans => .ok (some ans)) ∧
    (answerCond r = false → r.abstractText.data.length = 0 →
        (r.related = [] ∨ (r.related.headD ⟨"", ""⟩).text.data.length = 0) →
        selectAnswer sw arts q r = .ok none) := by
  refine ⟨?_, ?_, ?_, ?_⟩
  · intro t ht hne hhash
    have hA : answerCond r = true := by
      unfold answerCond
      rw [ht]
      simp [hne, hhash]
    unfold selectAnswer
    rw [if_pos hA, ht]
    rfl
  · intro hA habs
    unfold selectAnswer
    rw [if_neg (by simp [hA]), if_pos habs]
  · intro hA habs rel rest hrel htext
    unfold selectAnswer
    rw [if_neg (by simp [hA]), if_neg (by simp [habs]), hrel]
    simp only [List.headD_cons]
    rw [if_pos (And.intro (by rw [List.length_cons]; exact Nat.succ_pos _) htext)]
  · intro hA habs hrel
    unfold selectAnswer
    rw [if_neg (by simp [hA]), if_neg (by simp [habs]), if_neg ?_]
    rcases hrel with h0 | h0
    · rw [h0]; simp
    · intro hc
      rw [h0] at hc
      simp at hc

/-- Witness for C4 (amended), branch 1, at the claim's own example: an
answer text `"42"` for the query `"meaning of life"`. -/
theorem c4_priority_witness :
    query_ddg [] [] "meaning of life" (.ok ⟨"A", some "42", "", []⟩) (.ok none) =
      .ok (some "meaning of life is 42.") :=
  (c4_amended_priority [] [] "meaning of life" ⟨"A", some "42", "", []⟩).1 "42" rfl rfl rfl

/-- Claim C8 counterexample: Python `str.replace` with no count argument
replaces ALL non-overlapping occurrences, not only the first.  In
`"a cat a dog"` both occurrences of `"a "` are removed, giving
`"cat dog"`, not the `"cat a dog"` that first-occurrence-only stripping
would give. -/
theorem c8_counterexample :
    strip_articles "a cat a dog" = "cat dog" ∧
    ("cat dog" == "cat a dog") = false :=
  ⟨rfl, rfl⟩

/-- Claim C8 (amended): in the intent handler, after trigger-vocabulary
removal and topic extraction, the substrings `"an "`, `"a "` and `"the "`
are each stripped at EVERY non-overlapping occurrence in a single
left-to-right pass (Python `str.replace` semantics), anywhere in the
string — not only at the first occurrence.  The three equations
characterize the pass completely: an occurrence at the head is removed
and scanning continues on the remainder; a non-matching character is kept
and scanning moves on by one; a string without occurrences is unchanged. -/
theorem c8_amended_replace_all :
    (∀ pat repl l, pat ≠ [] →
        pyReplace pat repl (pat ++ l) = repl ++ pyReplace pat repl l) ∧
    (∀ pat repl c rest, pat.isPrefixOf (c :: rest) = false →
        pyReplace pat repl (c :: rest) = c :: pyReplace pat repl rest) ∧
    (∀ pat repl l, containsSub pat l = false → pyReplace pat repl l = l) ∧
    strip_articles "a cat a dog" = "cat dog" :=
  ⟨fun pat repl l hne => pyReplace_head_occurrence pat repl l hne,
   fun pat repl c rest h => pyReplace_step pat repl c rest h,
   fun pat repl l h => pyReplace_no_occurrence pat repl l h,
   rfl⟩

/-- Witness for C8 (amended): the head-occurrence and no-occurrence
equations applied at concrete inputs (`"a "` stripped from
`"a a dog"` twice: once at the head, once in the remainder). -/
theorem c8_replace_all_witness :
    pyReplace "a ".data "".data ("a ".data ++ "a dog".data) =
      "".data ++ pyReplace "a ".data "".data "a dog".data ∧
    pyReplace "d ".data "".data ("x" : String).data = ("x" : String).data :=
  ⟨c8_amended_replace_all.1 "a ".data "".data "a dog".data (by decide),
   c8_amended_replace_all.2.2.1 "d ".data "".data "x".data (by decide)⟩

/-- Claim C9: `CQS_match_query_phrase` is claimed to issue the primary
search query at most once per invocation (at most two HTTP calls in
total).  But the `break` after `answer = self.query_ddg(...)` only exits
the innermost `for article` loop; the verb and noun loops continue, so
every further (noun, verb) pair with a matching article fires `query_ddg`
— and its primary HTTP query — again.  With question words `["what"]`,
verbs `[" is", " is the"]`, articles `["the"]` and the query
`"what is the earth"`, both (noun, verb) pairs match and the primary
query is issued twice (up to four HTTP calls including disambiguation
fetches), contradicting the claim. -/
theorem c9_double_primary_call :
    cqs_primary_calls "what is the earth" ["what"] [" is", " is the"] ["the"] = 2 :=
  rfl
